import Mathlib

/-!
Shallow embedding of `src/fastapi-backend/main.py` (a FastAPI gateway in
front of a FHIR server), together with proofs about its identifier
validator, search-query builder, endpoint handlers and the
allergy/medication conflict matcher of `check_prescription`.

Modelling conventions:
* Python strings are Lean `String`s; `str.lower()` is modelled ASCII-wise.
* `x in y` on strings is Python's contiguous-substring test (`pyIn`);
  note that in Python `"" in y` is `True` for every `y`.
* JSON payload shapes that the code actually touches are modelled as
  structures with `Option` fields (`none` = key absent).
* Exceptions are modelled with `Except`; a handler is a pure function of
  the upstream outcome, returning the list of outbound requests it issued
  (in order) together with its result.  A Python `return {...}, code`
  pair is modelled as an error result carrying that body and status code.
-/

namespace Fhir

/-- ASCII lower-casing of one character, as `str.lower()` acts on the
ASCII range (the payloads of interest are ASCII). -/
def lowerChar (c : Char) : Char :=
  if 'A' ≤ c && c ≤ 'Z' then Char.ofNat (c.toNat + 32) else c

/-- Model of Python `s.lower()`. -/
def pyLower (s : String) : String :=
  ⟨s.data.map lowerChar⟩

/-- Decidable list-prefix test. -/
def isPrefixOfList : List Char → List Char → Bool
  | [], _ => true
  | _ :: _, [] => false
  | a :: as, b :: bs => a = b && isPrefixOfList as bs

/-- Model of Python `needle in hay` for strings (on their character
lists): contiguous substring; the empty needle is in everything. -/
def pyIn (needle : List Char) : List Char → Bool
  | [] => needle.isEmpty
  | b :: bs => isPrefixOfList needle (b :: bs) || pyIn needle bs

/-- Characters of the allow-list `[A-Za-z0-9\-.]` in `validate_fhir_id`. -/
def allowedChar (c : Char) : Bool :=
  ('A' ≤ c && c ≤ 'Z') || ('a' ≤ c && c ≤ 'z') ||
  ('0' ≤ c && c ≤ '9') || c = '-' || c = '.'

/-- Python `re` end-anchor `$` (without `re.MULTILINE`): it matches at the
end of the string, or just before one newline that ends the string. -/
def matchEnd : List Char → Bool
  | [] => true
  | [c] => c = '\n'
  | _ => false

/-- Matcher for `^[A-Za-z0-9\-\.]+$` under Python `re` semantics:
consume one or more allowed characters, then `$` must match. -/
def matchPlus : List Char → Bool
  | [] => false
  | c :: rest => allowedChar c && (matchEnd rest || matchPlus rest)

/-- `validate_fhir_id` (main.py lines 42-45): `true` when
`re.match(r"^[A-Za-z0-9\-\.]+$", resource_id)` succeeds, `false` when the
function raises its 400 `HTTPException`. -/
def validate_fhir_id (resource_id : String) : Bool :=
  matchPlus resource_id.data

/-- Modelled from the spec: "Accepts a non-empty string matching
`^[A-Za-z0-9\-.]+$`" read as: every character is in the allow-list and
the string is non-empty.  Used to compare the spec's reading of the
regex with the code's actual Python-`re` behaviour. -/
def specIdAccepts (s : String) : Bool :=
  !s.data.isEmpty && s.data.all allowedChar

/-- The JSON object `resource.code` as the matcher touches it: only the
`text` key is read (`none` = key absent). -/
structure CodeObj where
  text : Option String
deriving Repr, DecidableEq, Inhabited

/-- One element of the `reaction` list: only `severity` is read. -/
structure ReactionObj where
  severity : Option String
deriving Repr, DecidableEq, Inhabited

/-- One element of the `note` list: only `text` is read. -/
structure NoteObj where
  text : Option String
deriving Repr, DecidableEq, Inhabited

/-- The parts of an `AllergyIntolerance` resource read by
`check_prescription`; each field is `none` when the key is absent. -/
structure ResourceObj where
  code : Option CodeObj
  reaction : Option (List ReactionObj)
  note : Option (List NoteObj)
deriving Repr, DecidableEq, Inhabited

/-- One element of the bundle's `entry` list.  `resource = none` models
an entry object without a `"resource"` key: the code indexes
`entry["resource"]` directly, so that raises `KeyError`. -/
structure Entry where
  resource : Option ResourceObj
deriving Repr, DecidableEq, Inhabited

/-- One element of the `conflicts` list built by `check_prescription`. -/
structure Conflict where
  allergen : String
  severity : String
  description : String
deriving Repr, DecidableEq, Inhabited

/-- The JSON body returned by `check_prescription` on the non-exception
path: `conflicts = none` models the safe response, which has no
`conflicts` key at all. -/
structure CheckResponse where
  safe : Bool
  conflicts : Option (List Conflict)
  recommendation : String
deriving Repr, DecidableEq

/-- The conflict-collecting loop of `check_prescription`
(main.py lines 186-198), with Python exceptions as `Except.error`:

* `entry["resource"]` on an entry without the key raises `KeyError`;
* `entry["resource"].get("note", [{}])[0]` raises `IndexError` when the
  `note` key is present and holds the empty list (the `[{}]` default is
  only used when the key is absent);
* every other access defends with `.get` defaults.

Conflicts are appended in entry order; the first exception aborts the
whole loop. -/
def checkConflicts (medication : String) : List Entry → Except String (List Conflict)
  | [] => .ok []
  | e :: rest =>
    match e.resource with
    | none => .error "KeyError: resource"
    | some r =>
      let substance := pyLower ((r.code.getD default).text.getD "")
      let reaction := r.reaction.getD []
      if pyIn (pyLower medication).data substance.data then
        let severity :=
          match reaction with
          | [] => "unknown"
          | x :: _ => x.severity.getD "unknown"
        match (match r.note with
               | none => Except.ok ((NoteObj.mk none).text.getD "No details")
               | some [] => Except.error "IndexError: note"
               | some (n :: _) => Except.ok (n.text.getD "No details")) with
        | .error msg => .error msg
        | .ok descr =>
          match checkConflicts medication rest with
          | .error msg => .error msg
          | .ok cs =>
            .ok ({ allergen := substance, severity := severity,
                   description := descr } :: cs)
      else
        checkConflicts medication rest

/-- Substance text of one entry as the code computes it, totalised with
the code's own defaults (for entries that do have a `resource` key this
is exactly what line 189 computes). -/
def substanceOf (e : Entry) : String :=
  pyLower (((e.resource.getD default).code.getD default).text.getD "")

/-- Line 192's test for one entry: the lower-cased medication name is a
substring of the lower-cased substance text. -/
def isConflict (medication : String) (e : Entry) : Bool :=
  pyIn (pyLower medication).data (substanceOf e).data

/-- The conflict record the loop body builds for a conflicting entry,
totalised with the defaults the code uses on its non-exception paths. -/
def mkConflict (e : Entry) : Conflict :=
  let r := e.resource.getD default
  { allergen := substanceOf e
  , severity :=
      match r.reaction.getD [] with
      | [] => "unknown"
      | x :: _ => x.severity.getD "unknown"
  , description :=
      match r.note with
      | none => "No details"
      | some [] => "No details"
      | some (n :: _) => n.text.getD "No details" }

/-- `true` when the `note` field of a resource cannot raise the
`IndexError` of line 197: absent, or a non-empty list. -/
def noteOk (r : ResourceObj) : Bool :=
  match r.note with
  | none => true
  | some [] => false
  | some (_ :: _) => true

/-- An entry shape on which the loop body of `check_prescription` cannot
raise: the `resource` key is present, and if the entry is a conflict for
`medication` then its `note` key is absent or holds a non-empty list. -/
def entryOk (medication : String) (e : Entry) : Bool :=
  e.resource.isSome &&
    (!(isConflict medication e) || noteOk (e.resource.getD default))

/-- One outbound HTTP GET issued by a handler: the path appended to
`FHIR_BASE_URL` and the query-parameter mapping, in insertion order. -/
structure OutRequest where
  path : String
  params : List (String × String)
deriving Repr, DecidableEq

/-- Outcome of one outbound `requests.get(...)` as a handler observes
it: a reply with an HTTP status and a decoded JSON body of type `β`,
a `requests.exceptions.Timeout`, or any other exception (connection
failure, undecodable body, ...). -/
inductive Upstream (β : Type) where
  | reply (status : Nat) (body : β)
  | timeout
  | failure
deriving Repr, DecidableEq

/-- Result of a handler: a 200 JSON body, or an error body
`{"error": message}` paired with a status code (modelling the code's
`return {"error": ...}, code` pairs, and FastAPI's own rejection of a
request whose query parameters fail declared validation). -/
inductive HandlerResult (α : Type) where
  | ok (body : α)
  | err (message : String) (status : Nat)
deriving Repr, DecidableEq

/-- The raw query parameters of `GET /search-patients` as declared in
the `Query(...)` signature (main.py lines 56-65); `none` models an
omitted parameter (FastAPI default `None`). -/
structure SearchParams where
  name : Option String
  family : Option String
  given : Option String
  birthdate : Option String
  gender : Option String
  identifier : Option String
  _id : Option String
  _count : Int
  _page : Int
deriving Repr, DecidableEq

/-- Bound check for one optional query parameter (`max_length=n`). -/
def optLenOk (n : Nat) : Option String → Bool
  | none => true
  | some s => s.length ≤ n

/-- FastAPI's validation of the declared `Query` constraints of
`search_patients`: the `max_length` bounds, `_count` with `ge=1, le=100`
and `_page` with `ge=1`.  This runs before the handler body, so a
failing request never reaches the upstream fetch. -/
def searchQueryOk (p : SearchParams) : Bool :=
  optLenOk 50 p.name && optLenOk 50 p.family && optLenOk 50 p.given &&
  optLenOk 20 p.birthdate && optLenOk 10 p.gender &&
  optLenOk 50 p.identifier && optLenOk 64 p._id &&
  (1 ≤ p._count && p._count ≤ 100) && (1 ≤ p._page)

/-- Python truthiness of an optional string: present and non-empty. -/
def truthy : Option String → Bool
  | none => false
  | some s => s ≠ ""

/-- `if field:` inclusion of one optional parameter into the `params`
dict (Python truthiness: `None` and `""` are both falsy). -/
def optParam (key : String) : Option String → List (String × String)
  | none => []
  | some s => if s ≠ "" then [(key, s)] else []

/-- The `params` dict built by `search_patients` (main.py lines 77-91):
`_count` always, then each optional field only when truthy, in source
order.  Python dicts preserve insertion order. -/
def buildParams (p : SearchParams) : List (String × String) :=
  ("_count", toString p._count) ::
    (optParam "name" p.name ++ optParam "family" p.family ++
     optParam "given" p.given ++ optParam "birthdate" p.birthdate ++
     optParam "gender" p.gender ++ optParam "identifier" p.identifier ++
     optParam "_id" p._id)

/-- `GET /search-patients` (main.py lines 55-102).  After FastAPI's
query validation the body issues one fetch of `/Patient`;
`raise_for_status` turns a status ≥ 400 into `HTTPError`, handled
before the generic `except Exception`. -/
def search_patients {β : Type} (p : SearchParams) (up : Upstream β) :
    List OutRequest × HandlerResult β :=
  if searchQueryOk p then
    let req : OutRequest := ⟨"/Patient", buildParams p⟩
    match up with
    | .reply status body =>
      if 400 ≤ status then
        ([req], .err ("FHIR Server error: " ++ toString status) status)
      else
        ([req], .ok body)
    | .timeout =>
      ([req], .err "Request timeout – Firely Server took too long to respond" 504)
    | .failure => ([req], .err "Internal Server Error" 500)
  else
    ([], .err "Query parameter validation failed" 422)

/-- `GET /patient/{patient_id}` (main.py lines 104-118).
`validate_fhir_id` runs inside the `try`, so its 400 `HTTPException` is
caught by the trailing `except Exception` and returned as a generic 500;
a `Timeout` has no dedicated clause here and lands in the same
`except Exception`. -/
def get_patient {β : Type} (patient_id : String) (up : Upstream β) :
    List OutRequest × HandlerResult β :=
  if validate_fhir_id patient_id then
    let req : OutRequest := ⟨"/Patient/" ++ patient_id, []⟩
    match up with
    | .reply status body =>
      if 400 ≤ status then
        if status = 404 then
          ([req], .err ("Patient " ++ patient_id ++ " not found") 404)
        else
          ([req], .err ("FHIR Server error: " ++ toString status) status)
      else
        ([req], .ok body)
    | .timeout => ([req], .err "Internal Server Error" 500)
    | .failure => ([req], .err "Internal Server Error" 500)
  else
    ([], .err "Internal Server Error" 500)

/-- `GET /allergies/{patient_id}` (main.py lines 120-138): same shape as
`get_patient`, fetching `/AllergyIntolerance?patient=...`. -/
def get_allergies {β : Type} (patient_id : String) (up : Upstream β) :
    List OutRequest × HandlerResult β :=
  if validate_fhir_id patient_id then
    let req : OutRequest := ⟨"/AllergyIntolerance", [("patient", patient_id)]⟩
    match up with
    | .reply status body =>
      if 400 ≤ status then
        if status = 404 then
          ([req], .err ("No allergies found for patient " ++ patient_id) 404)
        else
          ([req], .err ("FHIR Server error: " ++ toString status) status)
      else
        ([req], .ok body)
    | .timeout => ([req], .err "Internal Server Error" 500)
    | .failure => ([req], .err "Internal Server Error" 500)
  else
    ([], .err "Internal Server Error" 500)

/-- `GET /medications/{patient_id}` (main.py lines 140-168): two
sequential fetches, no `raise_for_status` (statuses are ignored); any
exception, including the validator's `HTTPException` and timeouts, falls
into `except Exception` → generic 500.  If the first fetch raises, the
second is never issued. -/
def get_medications {β : Type} (patient_id : String)
    (up1 up2 : Upstream β) :
    List OutRequest × HandlerResult (β × β) :=
  if validate_fhir_id patient_id then
    let req1 : OutRequest :=
      ⟨"/MedicationRequest", [("patient", patient_id), ("status", "active")]⟩
    match up1 with
    | .reply _ body1 =>
      let req2 : OutRequest := ⟨"/MedicationStatement", [("patient", patient_id)]⟩
      match up2 with
      | .reply _ body2 => ([req1, req2], .ok (body1, body2))
      | .timeout => ([req1, req2], .err "Internal Server Error" 500)
      | .failure => ([req1, req2], .err "Internal Server Error" 500)
    | .timeout => ([req1], .err "Internal Server Error" 500)
    | .failure => ([req1], .err "Internal Server Error" 500)
  else
    ([], .err "Internal Server Error" 500)

/-- `POST /check-prescription` (main.py lines 170-213).  The upstream
body is the decoded allergy bundle: `none` models a JSON body without an
`"entry"` key (`.get("entry", [])` then yields `[]`).  There is no
`raise_for_status`: the HTTP status of the reply is never inspected.
Any exception — the validator's 400 `HTTPException`, a timeout, or a
`KeyError`/`IndexError` from the loop — is caught by `except Exception`
and returned as a generic 500. -/
def check_prescription (patient_id medication : String)
    (up : Upstream (Option (List Entry))) :
    List OutRequest × HandlerResult CheckResponse :=
  if validate_fhir_id patient_id then
    let req : OutRequest := ⟨"/AllergyIntolerance", [("patient", patient_id)]⟩
    match up with
    | .reply _ body =>
      match checkConflicts medication (body.getD []) with
      | .error _ => ([req], .err "Internal Server Error" 500)
      | .ok [] =>
        ([req], .ok { safe := true, conflicts := none,
                      recommendation := medication ++ " is safe for patient " ++
                        patient_id ++ " (no known allergies found)" })
      | .ok (c :: cs) =>
        ([req], .ok { safe := false, conflicts := some (c :: cs),
                      recommendation := "Do not prescribe – allergy conflict detected" })
    | .timeout => ([req], .err "Internal Server Error" 500)
    | .failure => ([req], .err "Internal Server Error" 500)
  else
    ([], .err "Internal Server Error" 500)

/-- A well-formed allergy entry recording a severe penicillin allergy
(the shape used in the spec's worked scenario). -/
def penicillinEntry : Entry :=
  ⟨some ⟨some ⟨some "Penicillin"⟩, some [⟨some "severe"⟩], none⟩⟩

/-- A penicillin allergy entry whose `note` key is present but holds the
empty list. -/
def noteEmptyEntry : Entry :=
  ⟨some ⟨some ⟨some "Penicillin"⟩, none, some []⟩⟩

/-- Search parameters with every optional field omitted and the given
`_count`, at the default `_page = 1`. -/
def countOnlyParams (c : Int) : SearchParams :=
  ⟨none, none, none, none, none, none, none, c, 1⟩

/- ------------------------------------------------------------------ -/
/- Helper lemmas                                                       -/
/- ------------------------------------------------------------------ -/

theorem isPrefixOfList_iff (n : List Char) :
    ∀ h : List Char, isPrefixOfList n h = true ↔ n <+: h := by
  induction n with
  | nil =>
    intro h
    simp [isPrefixOfList]
  | cons a as ih =>
    intro h
    cases h with
    | nil => simp [isPrefixOfList]
    | cons b bs =>
      simp only [isPrefixOfList, Bool.and_eq_true, decide_eq_true_eq,
        List.cons_prefix_cons, ih bs]

theorem pyIn_iff_substring (n : List Char) :
    ∀ h : List Char, pyIn n h = true ↔ n <:+: h := by
  intro h
  induction h with
  | nil =>
    simp [pyIn, List.isEmpty_iff]
  | cons b bs ih =>
    simp only [pyIn, Bool.or_eq_true, isPrefixOfList_iff, ih,
      List.infix_cons_iff]

theorem matchPlus_characterisation (l : List Char) :
    matchPlus l =
      ((!l.isEmpty && l.all allowedChar) ||
       (l.getLast? == some '\n' &&
         (!l.dropLast.isEmpty && l.dropLast.all allowedChar))) := by
  induction l with
  | nil => rfl
  | cons c rest ih =>
    cases rest with
    | nil =>
      have hnl : allowedChar '\n' = false := by decide
      by_cases hc : c = '\n'
      · subst hc; simp [matchPlus, matchEnd, hnl]
      · simp [matchPlus, matchEnd, hc]
    | cons x rest' =>
      cases rest' with
      | nil =>
        have hnl : allowedChar '\n' = false := by decide
        by_cases hx : x = '\n'
        · subst hx; simp [matchPlus, matchEnd, hnl]
        · simp [matchPlus, matchEnd, hx]
      | cons y ys =>
        rw [matchPlus, ih]
        simp only [matchEnd, List.isEmpty_cons, List.all_cons,
          List.getLast?_cons_cons, List.dropLast_cons₂, Bool.not_false,
          Bool.true_and, Bool.false_or]
        cases allowedChar c <;> simp

theorem checkConflicts_ok (medication : String) (entries : List Entry)
    (h : ∀ e ∈ entries, entryOk medication e = true) :
    checkConflicts medication entries =
      .ok ((entries.filter (isConflict medication)).map mkConflict) := by
  induction entries with
  | nil => rfl
  | cons e rest ih =>
    have he : entryOk medication e = true := h e (List.mem_cons_self e rest)
    have hrest := ih (fun x hx => h x (List.mem_cons_of_mem e hx))
    rcases hre : e.resource with _ | r
    · simp [entryOk, hre] at he
    · have hsub : pyLower ((r.code.getD default).text.getD "") = substanceOf e := by
        simp [substanceOf, hre]
      have hok : isConflict medication e = false ∨ noteOk r = true := by
        simp only [entryOk, hre, Option.isSome_some, Bool.true_and,
          Bool.or_eq_true, Bool.not_eq_true'] at he
        rcases he with he | he
        · exact Or.inl he
        · exact Or.inr (by simpa [hre] using he)
      simp only [checkConflicts, hre, hsub]
      rw [show pyIn (pyLower medication).data (substanceOf e).data =
            isConflict medication e from rfl]
      cases hc : isConflict medication e with
      | false =>
        simp only [Bool.false_eq_true, if_false]
        rw [hrest]
        simp [List.filter_cons, hc]
      | true =>
        have hnote : noteOk r = true := by
          rcases hok with h' | h'
          · rw [hc] at h'; cases h'
          · exact h'
        simp only [if_true]
        rcases hn : r.note with _ | ⟨_ | ⟨n, ns⟩⟩
        · rw [hrest]
          simp [List.filter_cons, hc, mkConflict, substanceOf, hre, hn]
        · simp [noteOk, hn] at hnote
        · rw [hrest]
          simp [List.filter_cons, hc, mkConflict, substanceOf, hre, hn]

/- ------------------------------------------------------------------ -/
/- Claim theorems                                                      -/
/- ------------------------------------------------------------------ -/

/-- C1 (counterexample): the claim quantifies over every allergy bundle,
but on a bundle holding one entry without a `"resource"` key — an entry
with no conflicting substance text, so the claim demands the Safe
verdict — `check_prescription` raises `KeyError` and answers with the
generic 500 error instead of any verdict. -/
theorem c1_counterexample :
    (∀ e ∈ [(⟨none⟩ : Entry)], isConflict "penicillin" e = false) ∧
    check_prescription "p1" "penicillin" (.reply 200 (some [⟨none⟩])) =
      ([⟨"/AllergyIntolerance", [("patient", "p1")]⟩],
       .err "Internal Server Error" 500) := by
  constructor
  · decide
  · decide

/-- C1 (amended): for every non-empty medication name and every bundle
whose entries all carry a `resource` key and whose conflicting entries
have an absent or non-empty `note` list, the check returns Unsafe iff
some entry's substance text contains the lower-cased medication name as
a substring (case-insensitively, both sides lower-cased), the conflicts
list is exactly the conflicting entries in upstream order, and its
length is the number of conflicting entries; otherwise Safe with no
conflicts field. -/
theorem c1_conflict_matcher (patient_id medication : String) (status : Nat)
    (entries : List Entry)
    (hid : validate_fhir_id patient_id = true)
    (_hmed : medication ≠ "")
    (hwf : ∀ e ∈ entries, entryOk medication e = true) :
    ∃ resp : CheckResponse,
      (check_prescription patient_id medication
          (.reply status (some entries))).2 = .ok resp ∧
      (resp.safe = false ↔
        ∃ e ∈ entries, (pyLower medication).data <:+: (substanceOf e).data) ∧
      (resp.safe = false →
        resp.conflicts =
          some ((entries.filter (isConflict medication)).map mkConflict)) ∧
      (resp.safe = true → resp.conflicts = none) ∧
      ((entries.filter (isConflict medication)).map mkConflict).length =
        entries.countP (isConflict medication) := by
  have hcc := checkConflicts_ok medication entries hwf
  have hlen : ((entries.filter (isConflict medication)).map mkConflict).length =
      entries.countP (isConflict medication) := by
    simp [List.countP_eq_length_filter]
  simp only [check_prescription, hid, if_true, Option.getD_some]
  rw [hcc]
  rcases hfe : entries.filter (isConflict medication) with _ | ⟨c0, cs0⟩
  · refine ⟨_, rfl, ?_, by simp, by simp, by rw [← hfe]; exact hlen⟩
    simp only [List.map_nil]
    constructor
    · intro hfalse; cases hfalse
    · rintro ⟨e, he, hinf⟩
      have : isConflict medication e = true := by
        rw [isConflict, pyIn_iff_substring]; exact hinf
      have : e ∈ entries.filter (isConflict medication) :=
        List.mem_filter.mpr ⟨he, this⟩
      rw [hfe] at this
      cases this
  · refine ⟨_, rfl, ?_, ?_, by simp, by rw [← hfe]; exact hlen⟩
    · simp only [List.map_cons, true_iff]
      have hc0 : c0 ∈ entries.filter (isConflict medication) := by
        rw [hfe]; exact List.mem_cons_self _ _
      rcases List.mem_filter.mp hc0 with ⟨hmem, hconf⟩
      exact ⟨c0, hmem, (pyIn_iff_substring _ _).mp hconf⟩
    · intro _
      simp [hfe]

/-- C2: the claim says an empty medication name is special-cased to
match nothing and yields Safe; in the code `medication.lower() in
substance` with an empty medication is `True` for every substance, so a
patient with one recorded penicillin allergy gets the Unsafe verdict
with that entry flagged. -/
theorem c2_empty_medication_flags_all :
    check_prescription "p1" "" (.reply 200 (some [penicillinEntry])) =
      ([⟨"/AllergyIntolerance", [("patient", "p1")]⟩],
       .ok { safe := false,
             conflicts := some [⟨"penicillin", "severe", "No details"⟩],
             recommendation := "Do not prescribe – allergy conflict detected" }) ∧
    (∀ e : Entry, pyIn (pyLower "").data (substanceOf e).data = true) := by
  constructor
  · decide
  · intro e
    show pyIn [] (substanceOf e).data = true
    cases (substanceOf e).data <;> simp [pyIn, isPrefixOfList]

/-- C3: the claim says no entry shape makes the whole match fail; but an
entry without a `resource` key raises `KeyError`, and a conflicting
entry whose `note` key holds the empty list raises `IndexError`
(`.get("note", [{}])[0]` only defends against an absent key), and either
exception turns the whole check into a generic 500. -/
theorem c3_defensive_access_fails :
    checkConflicts "penicillin" [noteEmptyEntry] = .error "IndexError: note" ∧
    checkConflicts "aspirin" [⟨none⟩] = .error "KeyError: resource" ∧
    (check_prescription "p2" "penicillin"
        (.reply 200 (some [noteEmptyEntry]))).2 =
      .err "Internal Server Error" 500 ∧
    (check_prescription "p2" "aspirin" (.reply 200 (some [⟨none⟩]))).2 =
      .err "Internal Server Error" 500 := by
  refine ⟨rfl, rfl, by decide, by decide⟩

/-- Witness for `c1_conflict_matcher`: the spec's worked scenario, a
severe penicillin allergy checked against "penicillin". -/
theorem c1_conflict_matcher_witness :
    (validate_fhir_id "p1" = true ∧ "penicillin" ≠ "" ∧
      ∀ e ∈ [penicillinEntry], entryOk "penicillin" e = true) ∧
    (∃ resp : CheckResponse,
      (check_prescription "p1" "penicillin"
          (.reply 200 (some [penicillinEntry]))).2 = .ok resp ∧
      (resp.safe = false ↔
        ∃ e ∈ [penicillinEntry],
          (pyLower "penicillin").data <:+: (substanceOf e).data) ∧
      (resp.safe = false →
        resp.conflicts =
          some (([penicillinEntry].filter (isConflict "penicillin")).map mkConflict)) ∧
      (resp.safe = true → resp.conflicts = none) ∧
      (([penicillinEntry].filter (isConflict "penicillin")).map mkConflict).length =
        [penicillinEntry].countP (isConflict "penicillin")) :=
  ⟨⟨by decide, by decide, by decide⟩,
   c1_conflict_matcher "p1" "penicillin" 200 [penicillinEntry]
     (by decide) (by decide) (by decide)⟩

/-- C4: for a patient_id failing validation, the four id-taking handlers
do not answer 400 with a message naming the constraint: the validator's
400 `HTTPException` is raised inside the `try` and the trailing
`except Exception` converts it into the generic 500 body.  The part of
the claim that does hold: no upstream request is issued. -/
theorem c4_invalid_id_gives_500 {β : Type} (patient_id medication : String)
    (up up2 : Upstream β) (upc : Upstream (Option (List Entry)))
    (h : validate_fhir_id patient_id = false) :
    get_patient patient_id up = ([], .err "Internal Server Error" 500) ∧
    get_allergies patient_id up = ([], .err "Internal Server Error" 500) ∧
    get_medications patient_id up up2 = ([], .err "Internal Server Error" 500) ∧
    check_prescription patient_id medication upc =
      ([], .err "Internal Server Error" 500) := by
  refine ⟨?_, ?_, ?_, ?_⟩ <;>
    simp [get_patient, get_allergies, get_medications, check_prescription, h]

/-- Witness for `c4_invalid_id_gives_500` at the spec's own rejected
identifier `"abc/123"`. -/
theorem c4_invalid_id_gives_500_witness :
    validate_fhir_id "abc/123" = false ∧
    (get_patient "abc/123" (Upstream.reply 200 (0 : Nat)) =
        ([], .err "Internal Server Error" 500) ∧
      get_allergies "abc/123" (Upstream.reply 200 (0 : Nat)) =
        ([], .err "Internal Server Error" 500) ∧
      get_medications "abc/123" (Upstream.reply 200 (0 : Nat))
          (Upstream.reply 200 (0 : Nat)) =
        ([], .err "Internal Server Error" 500) ∧
      check_prescription "abc/123" "aspirin" (.reply 200 none) =
        ([], .err "Internal Server Error" 500)) :=
  ⟨by decide,
   c4_invalid_id_gives_500 "abc/123" "aspirin" (.reply 200 0) (.reply 200 0)
     (.reply 200 none) (by decide)⟩

/-- C5 (counterexample): `/search-patients` embeds the `_id` search
parameter into the outbound query mapping without ever calling
`validate_fhir_id` — here an identifier the validator rejects reaches
the upstream request. -/
theorem c5_counterexample :
    validate_fhir_id "abc/123" = false ∧
    search_patients (β := Nat)
        { name := none, family := none, given := none, birthdate := none,
          gender := none, identifier := none, _id := some "abc/123",
          _count := 10, _page := 1 }
        (.reply 200 0) =
      ([⟨"/Patient", [("_count", "10"), ("_id", "abc/123")]⟩], .ok 0) := by
  exact ⟨by decide, by rfl⟩

/-- C5 (amended): the path identifiers of `/patient`, `/allergies`,
`/medications` and `/check-prescription` are validated before any
outbound request (an id the validator rejects issues none), but the
`_id` parameter of `/search-patients` is not routed through the
validator (see the counterexample). -/
theorem c5_path_ids_validated {β : Type} (patient_id medication : String)
    (up1 up2 : Upstream β) (upc : Upstream (Option (List Entry)))
    (h : validate_fhir_id patient_id = false) :
    (get_patient patient_id up1).1 = [] ∧
    (get_allergies patient_id up1).1 = [] ∧
    (get_medications patient_id up1 up2).1 = [] ∧
    (check_prescription patient_id medication upc).1 = [] := by
  refine ⟨?_, ?_, ?_, ?_⟩ <;>
    simp [get_patient, get_allergies, get_medications, check_prescription, h]

/-- Witness for `c5_path_ids_validated` at the rejected identifier
`"abc 123"`. -/
theorem c5_path_ids_validated_witness :
    validate_fhir_id "abc 123" = false ∧
    ((get_patient "abc 123" (Upstream.reply 200 (0 : Nat))).1 = [] ∧
      (get_allergies "abc 123" (Upstream.reply 200 (0 : Nat))).1 = [] ∧
      (get_medications "abc 123" (Upstream.reply 200 (0 : Nat))
          (Upstream.reply 200 (0 : Nat))).1 = [] ∧
      (check_prescription "abc 123" "aspirin" (.reply 200 none)).1 = []) :=
  ⟨by decide,
   c5_path_ids_validated "abc 123" "aspirin" (.reply 200 0) (.reply 200 0)
     (.reply 200 none) (by decide)⟩

/-- C6 (counterexample): a timeout on the single-resource fetch of
`/patient/{id}` is not surfaced as 504 with the fixed timeout message:
`get_patient` has no `Timeout` handler, so it falls into
`except Exception` and answers the generic 500. -/
theorem c6_counterexample :
    get_patient "p1" (Upstream.timeout (β := Nat)) =
      ([⟨"/Patient/p1", []⟩], .err "Internal Server Error" 500) := by
  decide

/-- C6 (amended): only `/search-patients` surfaces an upstream timeout
as `{error: "Request timeout – ..."}` with 504; the other endpoints'
fetches surface a timeout as the generic 500 response. -/
theorem c6_timeout_behaviour {β : Type} (p : SearchParams)
    (patient_id medication : String)
    (hp : searchQueryOk p = true)
    (hid : validate_fhir_id patient_id = true) :
    (search_patients (β := β) p .timeout).2 =
      .err "Request timeout – Firely Server took too long to respond" 504 ∧
    (get_patient (β := β) patient_id .timeout).2 =
      .err "Internal Server Error" 500 ∧
    (get_allergies (β := β) patient_id .timeout).2 =
      .err "Internal Server Error" 500 ∧
    (get_medications (β := β) patient_id .timeout .timeout).2 =
      .err "Internal Server Error" 500 ∧
    (check_prescription patient_id medication .timeout).2 =
      .err "Internal Server Error" 500 := by
  refine ⟨?_, ?_, ?_, ?_, ?_⟩ <;>
    simp [search_patients, get_patient, get_allergies, get_medications,
      check_prescription, hp, hid]

/-- Witness for `c6_timeout_behaviour` with a default search and patient
`"p1"`. -/
theorem c6_timeout_behaviour_witness :
    (searchQueryOk (countOnlyParams 10) = true ∧
      validate_fhir_id "p1" = true) ∧
    ((search_patients (β := Nat) (countOnlyParams 10) .timeout).2 =
        .err "Request timeout – Firely Server took too long to respond" 504 ∧
      (get_patient (β := Nat) "p1" .timeout).2 =
        .err "Internal Server Error" 500 ∧
      (get_allergies (β := Nat) "p1" .timeout).2 =
        .err "Internal Server Error" 500 ∧
      (get_medications (β := Nat) "p1" .timeout .timeout).2 =
        .err "Internal Server Error" 500 ∧
      (check_prescription "p1" "aspirin" .timeout).2 =
        .err "Internal Server Error" 500) :=
  ⟨⟨by decide, by decide⟩,
   c6_timeout_behaviour (countOnlyParams 10) "p1" "aspirin"
     (by decide) (by decide)⟩

/-- C7: for a bundle whose `entry` list is absent (`.get("entry", [])`
defaults to `[]`) or empty, the check returns safe with the exact
recommendation string and no conflicts field, for every medication and
every valid patient id. -/
theorem c7_empty_bundle_safe (patient_id medication : String) (status : Nat)
    (body : Option (List Entry))
    (hid : validate_fhir_id patient_id = true)
    (hbody : body = none ∨ body = some []) :
    (check_prescription patient_id medication (.reply status body)).2 =
      .ok { safe := true, conflicts := none,
            recommendation := medication ++ " is safe for patient " ++
              patient_id ++ " (no known allergies found)" } := by
  rcases hbody with rfl | rfl <;> simp [check_prescription, hid, checkConflicts]

/-- Witness for `c7_empty_bundle_safe`: the spec's aspirin scenario on a
bundle without an `entry` key. -/
theorem c7_empty_bundle_safe_witness :
    (validate_fhir_id "p1" = true ∧
      ((none : Option (List Entry)) = none ∨
        (none : Option (List Entry)) = some [])) ∧
    (check_prescription "p1" "aspirin" (.reply 200 none)).2 =
      .ok { safe := true, conflicts := none,
            recommendation := "aspirin" ++ " is safe for patient " ++
              "p1" ++ " (no known allergies found)" } :=
  ⟨⟨by decide, Or.inl rfl⟩,
   c7_empty_bundle_safe "p1" "aspirin" 200 none (by decide) (Or.inl rfl)⟩

/-- C8 (counterexample): the validator accepts `"abc\n"`, a string
containing whitespace that the claim's accepted set (non-empty strings
over the allow-list) excludes — Python's `$` also matches just before a
trailing newline. -/
theorem c8_counterexample :
    validate_fhir_id "abc\n" = true ∧ specIdAccepts "abc\n" = false :=
  ⟨by decide, by decide⟩

/-- C8 (amended): the validator accepts exactly the non-empty strings
over `[A-Za-z0-9\-.]`, plus any such string followed by one trailing
newline; the claim's four concrete examples behave as stated. -/
theorem c8_validator_characterisation (s : String) :
    validate_fhir_id s =
      (specIdAccepts s ||
        (s.data.getLast? == some '\n' && specIdAccepts ⟨s.data.dropLast⟩)) ∧
    validate_fhir_id "abc-123.X" = true ∧
    validate_fhir_id "abc/123" = false ∧
    validate_fhir_id "" = false ∧
    validate_fhir_id "abc 123" = false := by
  refine ⟨?_, by decide, by decide, by decide, by decide⟩
  show matchPlus s.data = _
  rw [matchPlus_characterisation]
  rfl

/-- C9: the outbound search mapping always contains `_count` and
contains each optional field exactly when it is present and non-empty,
in source order; `_count` outside [1,100] is rejected (by the declared
`ge`/`le` bounds) before any upstream request, with `_count = 0` and
`101` failing and `100` succeeding. -/
theorem c9_search_query_builder {β : Type} (p : SearchParams)
    (up : Upstream β) :
    ((buildParams p).map Prod.fst =
      "_count" ::
        ((if truthy p.name then ["name"] else []) ++
         (if truthy p.family then ["family"] else []) ++
         (if truthy p.given then ["given"] else []) ++
         (if truthy p.birthdate then ["birthdate"] else []) ++
         (if truthy p.gender then ["gender"] else []) ++
         (if truthy p.identifier then ["identifier"] else []) ++
         (if truthy p._id then ["_id"] else []))) ∧
    ((1 ≤ p._count ∧ p._count ≤ 100) ∨
      search_patients p up =
        ([], .err "Query parameter validation failed" 422)) ∧
    (search_patients (β := Nat) (countOnlyParams 0) (.reply 200 0) =
      ([], .err "Query parameter validation failed" 422)) ∧
    (search_patients (β := Nat) (countOnlyParams 101) (.reply 200 0) =
      ([], .err "Query parameter validation failed" 422)) ∧
    (search_patients (β := Nat) (countOnlyParams 100) (.reply 200 0) =
      ([⟨"/Patient", [("_count", "100")]⟩], .ok 0)) := by
  have keys : ∀ (k : String) (o : Option String),
      (optParam k o).map Prod.fst = if truthy o then [k] else [] := by
    intro k o
    rcases o with _ | s
    · rfl
    · by_cases hs : s = "" <;> simp [optParam, truthy, hs]
  refine ⟨?_, ?_, by decide, by decide, by decide⟩
  · simp [buildParams, keys]
  · by_cases hc : 1 ≤ p._count ∧ p._count ≤ 100
    · exact Or.inl hc
    · right
      rcases hq : searchQueryOk p with _ | _
      · simp [search_patients, hq]
      · exfalso
        apply hc
        simp only [searchQueryOk, Bool.and_eq_true, decide_eq_true_eq] at hq
        exact hq.1.2

/-- C10: `check_prescription` never inspects the HTTP status of the
allergy fetch (there is no `raise_for_status`): the response is the same
function of the JSON body whatever the status, and any body without an
`entry` field — error bodies of non-2xx replies included — is treated
as an empty allergy list and answered safe. -/
theorem c10_upstream_status_ignored (patient_id medication : String)
    (s1 s2 : Nat) (body : Option (List Entry))
    (hid : validate_fhir_id patient_id = true) :
    check_prescription patient_id medication (.reply s1 body) =
      check_prescription patient_id medication (.reply s2 body) ∧
    (check_prescription patient_id medication (.reply s1 none)).2 =
      .ok { safe := true, conflicts := none,
            recommendation := medication ++ " is safe for patient " ++
              patient_id ++ " (no known allergies found)" } := by
  constructor
  · simp [check_prescription, hid]
  · simp [check_prescription, hid, checkConflicts]

/-- Witness for `c10_upstream_status_ignored`: a 500 upstream reply is
handled exactly like a 200 one. -/
theorem c10_upstream_status_ignored_witness :
    validate_fhir_id "p1" = true ∧
    (check_prescription "p1" "aspirin" (.reply 500 (some [penicillinEntry])) =
        check_prescription "p1" "aspirin" (.reply 200 (some [penicillinEntry])) ∧
      (check_prescription "p1" "aspirin" (.reply 500 none)).2 =
        .ok { safe := true, conflicts := none,
              recommendation := "aspirin" ++ " is safe for patient " ++
                "p1" ++ " (no known allergies found)" }) :=
  ⟨by decide,
   c10_upstream_status_ignored "p1" "aspirin" 500 200 (some [penicillinEntry])
     (by decide)⟩

end Fhir
